import Mathlib

/-!
# Verification of the RVPT frame orchestration core

This development embeds the frame orchestration and GPU-resource
synchronization logic of `src/rvpt/rvpt.cpp` (the `RVPT` class) as a
shallow state-machine model in Lean.  GPU-side calls are modelled as an
event trace emitted by each operation; host-visible renderer state
(frame-pool cursor, per-frame slots, per-image fence table, swapchain
shape) is an explicit record threaded through the operations.

External collaborators (the Vulkan swapchain builder, the window) are
modelled as parameters: a `Backend` supplies the image count and format
the swapchain builder would choose for a given window extent, and each
tick's `DrawInput` supplies the window extent and the results the
driver reports for acquire and present.
-/

/-- Result codes of the Vulkan calls that `RVPT::draw` branches on. -/
inductive VkResult where
  | success
  | suboptimal_khr
  | error_out_of_date_khr
  | other_error
deriving DecidableEq, Repr

/-- The queues `RVPT` may hold (`graphics_queue`, `compute_queue`,
`present_queue`). -/
inductive QueueKind where
  | graphics
  | compute
  | present
deriving DecidableEq, Repr

/-- The fences of the renderer: each per-frame slot's
`raytrace_work_fence`, and each sync-resource slot's `command_fence`. -/
inductive FenceId where
  | raytrace_work_fence (slot : Nat)
  | command_fence (frame : Nat)
deriving DecidableEq, Repr

/-- The host-writable buffers owned by per-frame slot `slot`. -/
inductive BufferId where
  | camera_uniform (slot : Nat)
  | random_uniform (slot : Nat)
  | settings_uniform (slot : Nat)
  | sphere_buffer (slot : Nat)
deriving DecidableEq, Repr

/-- The two descriptor sets of per-frame slot `slot`
(`image_descriptor_set` for sampling, `raytracing_descriptor_sets` for
the compute pass). -/
inductive DescSetId where
  | image_descriptor_set (slot : Nat)
  | raytracing_descriptor_set (slot : Nat)
deriving DecidableEq, Repr

/-- Observable GPU-facing actions of the renderer, in the order the
source code issues them. -/
inductive Event where
  | fence_wait (f : FenceId)
  | fence_reset (f : FenceId)
  | buffer_copy (b : BufferId)
  | record_compute_cmd (slot gx gy : Nat)
  | compute_submit (q : QueueKind) (slot : Nat)
  | cmd_buffer_reset (frame : Nat)
  | acquire_next_image
  | record_graphics_cmd (frame image : Nat)
  | image_fence_wait (image : Nat)
  | register_image_fence (image : Nat) (f : FenceId)
  | graphics_submit (frame : Nat)
  | present_image (image : Nat)
  | swapchain_rebuild
  | update_descriptor_sets (s : DescSetId)
  | alloc_command_buffer (q : QueueKind) (slot : Nat)
deriving DecidableEq, Repr

/-- Window framebuffer extent. -/
structure Extent where
  width : Nat
  height : Nat
deriving DecidableEq, Repr

/-- What `vkb::SwapchainBuilder` (an external collaborator) would
produce for a given window extent: the image count it picks and the
surface format.  Deterministic for a fixed device/surface, hence a
function of the extent. -/
structure Backend where
  image_count_of : Extent → Nat
  image_format : Nat

/-- The shape of `vkb_swapchain`: extent, image format, image count. -/
structure SwapchainState where
  extent : Extent
  image_format : Nat
  image_count : Nat
deriving DecidableEq, Repr

/-- `vkb::SwapchainBuilder(...).build()`: a fresh swapchain for the
current window extent. -/
def build_swapchain (be : Backend) (window_extent : Extent) : SwapchainState :=
  { extent := window_extent
    image_format := be.image_format
    image_count := be.image_count_of window_extent }

/-- One framebuffer: built from the render pass, the swapchain extent,
and one swapchain image view (`RVPT::create_framebuffers`). -/
structure Framebuffer where
  extent : Extent
  image_view : Nat
deriving DecidableEq, Repr

/-- One element of `per_frame_data`: the per-slot output image
dimensions (the image is created 512 x 512 in `add_per_frame_data`) and
the queue its `raytrace_command_buffer` was allocated from. -/
structure PerFrameData where
  output_image_width : Nat
  output_image_height : Nat
  cmd_buffer_queue : QueueKind
deriving DecidableEq, Repr

/-- Default slot used only to totalize out-of-bounds list reads (the
source indexes `per_frame_data[current_frame_index]` unchecked). -/
def default_per_frame : PerFrameData :=
  { output_image_width := 512, output_image_height := 512
    cmd_buffer_queue := QueueKind.graphics }

/-- The host-visible state of the `RVPT` object that the orchestration
logic reads and writes. -/
structure RVPTState where
  current_frame_index : Nat
  sync_resources_count : Nat
  per_frame_data : List PerFrameData
  frames_inflight_fences : List (Option FenceId)
  vkb_swapchain : SwapchainState
  swapchain_images : List Nat
  swapchain_image_views : List Nat
  framebuffers : List Framebuffer
  framebuffer_resized : Bool
  has_dedicated_compute : Bool
deriving DecidableEq, Repr

/-- `RVPT::create_framebuffers`: clear `framebuffers`, then emplace one
framebuffer per swapchain image, each built from the current swapchain
extent and the image view of that index. -/
def create_framebuffers (st : RVPTState) : RVPTState :=
  let fbs := (List.range st.vkb_swapchain.image_count).map
    (fun i => { extent := st.vkb_swapchain.extent,
                image_view := st.swapchain_image_views.getD i 0 : Framebuffer })
  { st with framebuffers := fbs }

/-- `RVPT::swapchain_get_images`: refresh `swapchain_images` and
`swapchain_image_views` from the current swapchain. -/
def swapchain_get_images (st : RVPTState) : RVPTState :=
  { st with
      swapchain_images := List.range st.vkb_swapchain.image_count
      swapchain_image_views := List.range st.vkb_swapchain.image_count }

/-- `RVPT::swapchain_reinit`: clear the framebuffers, destroy the image
views, rebuild the swapchain from the current window extent, re-query
images and views, and recreate the framebuffers.  No other member of
the object is touched. -/
def swapchain_reinit (be : Backend) (window_extent : Extent) (st : RVPTState) : RVPTState :=
  let st1 := { st with framebuffers := [], swapchain_image_views := [] }
  let st2 := { st1 with vkb_swapchain := build_swapchain be window_extent }
  create_framebuffers (swapchain_get_images st2)

/-- The ternary at `rvpt.cpp:123`:
`compute_queue.has_value() ? *compute_queue : *graphics_queue`. -/
def compute_submit_queue (has_dedicated_compute : Bool) : QueueKind :=
  if has_dedicated_compute then QueueKind.compute else QueueKind.graphics

/-- The ternary at `rvpt.cpp:425` choosing the queue the per-frame
`raytrace_command_buffer` is allocated from. -/
def per_frame_cmd_queue (has_dedicated_compute : Bool) : QueueKind :=
  if has_dedicated_compute then QueueKind.compute else QueueKind.graphics

/-- `RVPT::add_per_frame_data`: create one per-frame slot (output image
512 x 512, uniform/storage buffers, a command buffer on the dedicated
compute queue when present else the graphics queue, a fence), allocate
its two descriptor sets and write their bindings once
(`vkUpdateDescriptorSets` for the sampling set, then once for the
compute set). -/
def add_per_frame_data (st : RVPTState) : RVPTState × List Event :=
  let slot := st.per_frame_data.length
  let pf : PerFrameData :=
    { output_image_width := 512, output_image_height := 512
      cmd_buffer_queue := per_frame_cmd_queue st.has_dedicated_compute }
  ( { st with per_frame_data := st.per_frame_data ++ [pf] },
    [ Event.alloc_command_buffer (per_frame_cmd_queue st.has_dedicated_compute) slot,
      Event.update_descriptor_sets (DescSetId.image_descriptor_set slot),
      Event.update_descriptor_sets (DescSetId.raytracing_descriptor_set slot) ] )

/-- The dispatch grid of `RVPT::record_compute_command_buffer`
(`rvpt.cpp:552`): `vkCmdDispatch(cmd, width / 16, height / 16, 1)` with
C++ integer (truncating) division. -/
def compute_dispatch_counts (pf : PerFrameData) : Nat × Nat :=
  (pf.output_image_width / 16, pf.output_image_height / 16)

/-- `RVPT::record_compute_command_buffer`: re-record the current slot's
compute command buffer (bind pipeline and descriptor set, dispatch
`width / 16` by `height / 16` by 1 work groups). -/
def record_compute_command_buffer (st : RVPTState) : List Event :=
  let i := st.current_frame_index
  let pf := st.per_frame_data.getD i default_per_frame
  [ Event.record_compute_cmd i (compute_dispatch_counts pf).1 (compute_dispatch_counts pf).2 ]

/-- Return value of `RVPT::draw` (`draw_return`). -/
inductive DrawReturn where
  | success
  | swapchain_out_of_date
deriving DecidableEq, Repr

/-- Whether a tick ran to completion or hit an `assert(false)` path
(fatal backend result). -/
inductive DrawOutcome where
  | ok (r : DrawReturn)
  | fatal
deriving DecidableEq, Repr

/-- The per-tick oracle: the current window framebuffer extent and the
driver-reported results of the acquire and present calls, plus the
image index the acquire returned. -/
structure DrawInput where
  window_extent : Extent
  acquired_image_index : Nat
  acquire_result : VkResult
  present_result : VkResult
deriving DecidableEq, Repr

/-- Events of `RVPT::draw` up to and including the swapchain acquire
(`rvpt.cpp:112-135`): wait on and reset the current slot's
`raytrace_work_fence`; copy camera, random, settings and sphere data
into the slot's buffers; re-record the compute command buffer; submit
it to the compute-capable queue signalling the slot's fence; wait on
the sync slot's `command_fence` and reset its graphics command buffer;
call `vkAcquireNextImageKHR`. -/
def draw_prelude (st : RVPTState) : List Event :=
  let i := st.current_frame_index
  [ Event.fence_wait (FenceId.raytrace_work_fence i),
    Event.fence_reset (FenceId.raytrace_work_fence i),
    Event.buffer_copy (BufferId.camera_uniform i),
    Event.buffer_copy (BufferId.random_uniform i),
    Event.buffer_copy (BufferId.settings_uniform i),
    Event.buffer_copy (BufferId.sphere_buffer i) ]
  ++ record_compute_command_buffer st
  ++ [ Event.compute_submit (compute_submit_queue st.has_dedicated_compute) i,
       Event.fence_wait (FenceId.command_fence i),
       Event.cmd_buffer_reset i,
       Event.acquire_next_image ]

/-- `RVPT::draw` (`rvpt.cpp:109-174`): one tick of the orchestrator.
After the prelude, on `VK_ERROR_OUT_OF_DATE_KHR` from the acquire it
reinitializes the swapchain and returns `swapchain_out_of_date` without
advancing the cursor; on any other non-success, non-suboptimal result
it asserts.  Otherwise it records the graphics command buffer for the
acquired image, waits on any fence previously registered for that image
index, registers the sync slot's `command_fence` as the image's new
guard, resets that fence, submits, presents, reinitializes the
swapchain if the present was out-of-date/suboptimal or a resize was
flagged, advances `current_frame_index` modulo the sync-resource count,
and returns success. -/
def draw (be : Backend) (st : RVPTState) (inp : DrawInput) :
    RVPTState × List Event × DrawOutcome :=
  let i := st.current_frame_index
  let pre := draw_prelude st
  if inp.acquire_result = VkResult.error_out_of_date_khr then
    (swapchain_reinit be inp.window_extent st,
     pre ++ [Event.swapchain_rebuild],
     DrawOutcome.ok DrawReturn.swapchain_out_of_date)
  else if inp.acquire_result ≠ VkResult.success ∧
          inp.acquire_result ≠ VkResult.suboptimal_khr then
    (st, pre, DrawOutcome.fatal)
  else
    let img := inp.acquired_image_index
    let guard_events : List Event :=
      if st.frames_inflight_fences.getD img none ≠ none
      then [Event.image_fence_wait img] else []
    let st2 := { st with frames_inflight_fences :=
        st.frames_inflight_fences.set img (some (FenceId.command_fence i)) }
    let mid : List Event :=
      [Event.record_graphics_cmd i img] ++ guard_events
      ++ [ Event.register_image_fence img (FenceId.command_fence i),
           Event.fence_reset (FenceId.command_fence i),
           Event.graphics_submit i,
           Event.present_image img ]
    if inp.present_result = VkResult.error_out_of_date_khr ∨
       inp.present_result = VkResult.suboptimal_khr ∨
       st.framebuffer_resized = true then
      let st3 := swapchain_reinit be inp.window_extent
                   { st2 with framebuffer_resized := false }
      ( { st3 with current_frame_index := (i + 1) % st3.sync_resources_count },
        pre ++ mid ++ [Event.swapchain_rebuild],
        DrawOutcome.ok DrawReturn.success )
    else if inp.present_result ≠ VkResult.success then
      (st2, pre ++ mid, DrawOutcome.fatal)
    else
      ( { st2 with current_frame_index := (i + 1) % st2.sync_resources_count },
        pre ++ mid,
        DrawOutcome.ok DrawReturn.success )

/-- Repeatedly add per-frame slots (`RVPT::initialize`'s loop calling
`add_per_frame_data` `MAX_FRAMES_IN_FLIGHT` times), accumulating the
emitted events. -/
def add_frames : Nat → RVPTState × List Event → RVPTState × List Event
  | 0, acc => acc
  | n + 1, (st, tr) =>
    let p := add_per_frame_data st
    add_frames n (p.1, tr ++ p.2)

/-- The setup part of `RVPT::initialize` relevant to orchestration:
build the initial swapchain, create `max_frames` sync resources, size
`frames_inflight_fences` to the swapchain image count filled with null,
query images/views, create the framebuffers, and add `max_frames`
per-frame slots.  `has_dedicated` records whether a dedicated compute
queue was found in `context_init`. -/
def init_rvpt (be : Backend) (window_extent : Extent) (max_frames : Nat)
    (has_dedicated : Bool) : RVPTState × List Event :=
  let sc := build_swapchain be window_extent
  let st0 : RVPTState :=
    { current_frame_index := 0
      sync_resources_count := max_frames
      per_frame_data := []
      frames_inflight_fences := List.replicate sc.image_count none
      vkb_swapchain := sc
      swapchain_images := List.range sc.image_count
      swapchain_image_views := List.range sc.image_count
      framebuffers := []
      framebuffer_resized := false
      has_dedicated_compute := has_dedicated }
  add_frames max_frames (create_framebuffers st0, [])

/-- A run of the render loop: fold `draw` over a list of per-tick
inputs, concatenating the emitted traces; a fatal tick stops the
process. -/
def draw_loop (be : Backend) (st : RVPTState) : List DrawInput → RVPTState × List Event
  | [] => (st, [])
  | inp :: rest =>
    match draw be st inp with
    | (st1, tr, DrawOutcome.fatal) => (st1, tr)
    | (st1, tr, DrawOutcome.ok _) =>
      let p := draw_loop be st1 rest
      (p.1, tr ++ p.2)

/-! ## Frame-fencing invariant (slot-pending discipline) -/

/-- Events that overwrite per-frame slot `i`'s host-writable buffers or
re-record its compute command buffer. -/
def is_slot_write (i : Nat) : Event → Bool
  | Event.buffer_copy (BufferId.camera_uniform j) => j == i
  | Event.buffer_copy (BufferId.random_uniform j) => j == i
  | Event.buffer_copy (BufferId.settings_uniform j) => j == i
  | Event.buffer_copy (BufferId.sphere_buffer j) => j == i
  | Event.record_compute_cmd j _ _ => j == i
  | _ => false

/-- Tracks whether slot `i` has GPU work outstanding (its
`raytrace_work_fence` has been submitted for signalling and is
unsignaled from the host's point of view until waited on): a compute
submit for the slot sets it, a host wait on the slot's fence clears
it. -/
def step_pending (i : Nat) (p : Bool) : Event → Bool
  | Event.compute_submit _ j => if j == i then true else p
  | Event.fence_wait (FenceId.raytrace_work_fence j) => if j == i then false else p
  | _ => p

/-- The trace never writes slot `i`'s buffers or re-records its compute
command buffer while the slot has outstanding GPU work. -/
def guard_ok (i : Nat) : Bool → List Event → Bool
  | _, [] => true
  | p, e :: es => (!(p && is_slot_write i e)) && guard_ok i (step_pending i p e) es

theorem guard_ok_append (i : Nat) (p : Bool) (t1 t2 : List Event) :
    guard_ok i p (t1 ++ t2) =
      (guard_ok i p t1 && guard_ok i (t1.foldl (step_pending i) p) t2) := by
  induction t1 generalizing p with
  | nil => simp [guard_ok]
  | cons e es ih => simp [guard_ok, ih, Bool.and_assoc]

theorem guard_ok_draw (be : Backend) (st : RVPTState) (inp : DrawInput)
    (i : Nat) (p : Bool) : guard_ok i p (draw be st inp).2.1 = true := by
  by_cases hc : st.current_frame_index = i
  · simp only [draw, draw_prelude, record_compute_command_buffer]
    split_ifs <;>
      simp [guard_ok, step_pending, is_slot_write, hc]
  · have hcf : (st.current_frame_index == i) = false := by
      simp [hc]
    simp only [draw, draw_prelude, record_compute_command_buffer]
    split_ifs <;>
      simp [guard_ok, step_pending, is_slot_write, hcf]

theorem guard_ok_draw_loop (be : Backend) (st : RVPTState)
    (inps : List DrawInput) (i : Nat) (p : Bool) :
    guard_ok i p (draw_loop be st inps).2 = true := by
  induction inps generalizing st p with
  | nil => rfl
  | cons inp rest ih =>
    unfold draw_loop
    rcases h : draw be st inp with ⟨st1, tr, out⟩
    have htr : guard_ok i p tr = true := by
      have := guard_ok_draw be st inp i p
      rw [h] at this
      exact this
    cases out with
    | fatal => exact htr
    | ok r =>
      simp only []
      rw [guard_ok_append, htr, Bool.true_and]
      exact ih _ _

/-! ## Concrete sample run used by witnesses and counterexamples -/

/-- A concrete backend: the swapchain builder always picks two images
and a fixed format. -/
def demo_backend : Backend :=
  { image_count_of := fun _ => 2, image_format := 37 }

/-- The renderer state right after setup at a 512 x 512 window with two
frames in flight and a dedicated compute queue. -/
def demo_state : RVPTState := (init_rvpt demo_backend ⟨512, 512⟩ 2 true).1

/-- Tick input: acquire succeeds with image index 0, present
succeeds. -/
def demo_input : DrawInput :=
  { window_extent := ⟨512, 512⟩, acquired_image_index := 0,
    acquire_result := VkResult.success, present_result := VkResult.success }

/-- State after one successful tick: the command fence of sync slot 0
is registered as the guard of swapchain image 0, the cursor is 1. -/
def demo_state2 : RVPTState := (draw demo_backend demo_state demo_input).1

/-- C1: Frame fencing invariant.  First conjunct: along any run of the
render loop, from any state and any assumed initial pending status, no
event ever overwrites a slot's camera/RNG/settings/primitive buffers or
re-records its compute command buffer while that slot's compute
submission is outstanding (its completion fence unsignaled since the
submit, not yet waited on).  Second conjunct: every tick's trace starts
with the prelude.  Third conjunct: the prelude is exactly: wait the
slot's `raytrace_work_fence`, reset it, and only then overwrite the
slot's four buffers, re-record its compute command buffer, and submit;
then wait the sync slot's fence, reset the graphics command buffer, and
acquire. -/
theorem C1_frame_fencing_invariant :
    (∀ (be : Backend) (st : RVPTState) (inps : List DrawInput) (i : Nat) (p : Bool),
      guard_ok i p (draw_loop be st inps).2 = true) ∧
    (∀ (be : Backend) (st : RVPTState) (inp : DrawInput),
      ∃ rest, (draw be st inp).2.1 = draw_prelude st ++ rest) ∧
    (∀ st : RVPTState,
      draw_prelude st =
        [ Event.fence_wait (FenceId.raytrace_work_fence st.current_frame_index),
          Event.fence_reset (FenceId.raytrace_work_fence st.current_frame_index),
          Event.buffer_copy (BufferId.camera_uniform st.current_frame_index),
          Event.buffer_copy (BufferId.random_uniform st.current_frame_index),
          Event.buffer_copy (BufferId.settings_uniform st.current_frame_index),
          Event.buffer_copy (BufferId.sphere_buffer st.current_frame_index),
          Event.record_compute_cmd st.current_frame_index
            ((st.per_frame_data.getD st.current_frame_index default_per_frame).output_image_width / 16)
            ((st.per_frame_data.getD st.current_frame_index default_per_frame).output_image_height / 16),
          Event.compute_submit (compute_submit_queue st.has_dedicated_compute)
            st.current_frame_index,
          Event.fence_wait (FenceId.command_fence st.current_frame_index),
          Event.cmd_buffer_reset st.current_frame_index,
          Event.acquire_next_image ]) := by
  refine ⟨fun be st inps i p => guard_ok_draw_loop be st inps i p, ?_, ?_⟩
  · intro be st inp
    simp only [draw]
    split_ifs <;> exact ⟨_, rfl⟩
  · intro st
    simp [draw_prelude, record_compute_command_buffer, compute_dispatch_counts]

/-- C2 counterexample: at the second tick of the sample run, which
acquires the same swapchain image index 0 that the first tick
registered a guard fence for, the graphics command buffer is recorded
BEFORE the wait on that registered per-image fence — the source records
the graphics pass at `rvpt.cpp:147` and only then waits on
`frames_inflight_fences[swapchain_image_index]` at `rvpt.cpp:149-153`.
This refutes the claim that the wait happens before recording. -/
theorem C2_wait_before_record_counterexample :
    Event.image_fence_wait 0 ∈ (draw demo_backend demo_state2 demo_input).2.1 ∧
    Event.record_graphics_cmd 1 0 ∈ (draw demo_backend demo_state2 demo_input).2.1 ∧
    List.indexOf (Event.record_graphics_cmd 1 0)
        (draw demo_backend demo_state2 demo_input).2.1 <
      List.indexOf (Event.image_fence_wait 0)
        (draw demo_backend demo_state2 demo_input).2.1 := by
  decide

/-- C2 amended: for any tick whose acquire succeeds (or reports
suboptimal) on an image index that already has a registered guard
fence, the tick's trace after the prelude is: record the graphics
command buffer, THEN wait on the registered per-image fence, register
this tick's command fence as the image's new guard, reset it, submit
the graphics work, and present — so the graphics SUBMISSION (not its
recording) never happens until the previously registered fence has
been waited on; and the tick indeed registers its own command fence
for that image index. -/
theorem C2_image_guard_before_submit (be : Backend) (st : RVPTState) (inp : DrawInput)
    (hacq : inp.acquire_result = VkResult.success ∨
            inp.acquire_result = VkResult.suboptimal_khr)
    (hreg : st.frames_inflight_fences.getD inp.acquired_image_index none ≠ none) :
    (∃ tail, (draw be st inp).2.1 =
      draw_prelude st ++
      ([ Event.record_graphics_cmd st.current_frame_index inp.acquired_image_index,
         Event.image_fence_wait inp.acquired_image_index,
         Event.register_image_fence inp.acquired_image_index
           (FenceId.command_fence st.current_frame_index),
         Event.fence_reset (FenceId.command_fence st.current_frame_index),
         Event.graphics_submit st.current_frame_index,
         Event.present_image inp.acquired_image_index ] ++ tail)) ∧
    (draw be st inp).1.frames_inflight_fences.getD inp.acquired_image_index none =
      some (FenceId.command_fence st.current_frame_index) := by
  have hne : inp.acquire_result ≠ VkResult.error_out_of_date_khr := by
    rcases hacq with h | h <;> simp [h]
  have hok : ¬(inp.acquire_result ≠ VkResult.success ∧
               inp.acquire_result ≠ VkResult.suboptimal_khr) := by
    rcases hacq with h | h <;> simp [h]
  have hlt : inp.acquired_image_index < st.frames_inflight_fences.length := by
    by_contra hge
    exact hreg (by
      simp [List.getD_eq_getElem?_getD, List.getElem?_eq_none (Nat.le_of_not_lt hge)])
  have hset : (st.frames_inflight_fences.set inp.acquired_image_index
        (some (FenceId.command_fence st.current_frame_index)))[inp.acquired_image_index]? =
      some (some (FenceId.command_fence st.current_frame_index)) :=
    List.getElem?_set_eq_of_lt _ hlt
  simp only [draw, if_neg hne, if_neg hok, if_pos hreg]
  split_ifs <;>
    exact ⟨⟨_, rfl⟩, by
      simp [swapchain_reinit, swapchain_get_images, create_framebuffers, hset]⟩

/-- Witness for the amended C2 at the concrete second tick of the
sample run. -/
theorem C2_image_guard_before_submit_witness :
    (∃ tail, (draw demo_backend demo_state2 demo_input).2.1 =
      draw_prelude demo_state2 ++
      ([ Event.record_graphics_cmd demo_state2.current_frame_index
           demo_input.acquired_image_index,
         Event.image_fence_wait demo_input.acquired_image_index,
         Event.register_image_fence demo_input.acquired_image_index
           (FenceId.command_fence demo_state2.current_frame_index),
         Event.fence_reset (FenceId.command_fence demo_state2.current_frame_index),
         Event.graphics_submit demo_state2.current_frame_index,
         Event.present_image demo_input.acquired_image_index ] ++ tail)) ∧
    (draw demo_backend demo_state2 demo_input).1.frames_inflight_fences.getD
        demo_input.acquired_image_index none =
      some (FenceId.command_fence demo_state2.current_frame_index) :=
  C2_image_guard_before_submit demo_backend demo_state2 demo_input
    (Or.inl rfl) (by decide)

/-- C3: Stale-acquire handling.  When the acquire reports
`VK_ERROR_OUT_OF_DATE_KHR`, the tick's remaining result is exactly: the
swapchain is reinitialized, the trace is the prelude followed by the
single rebuild, and the return value is `swapchain_out_of_date`; the
frame-pool cursor and the per-image fence table are unchanged; no
graphics recording, image-guard wait or registration, graphics submit
or present happens; and the prelude itself contains no rebuild, so the
rebuild is invoked exactly once. -/
theorem C3_stale_acquire_skips_tick (be : Backend) (st : RVPTState) (inp : DrawInput)
    (h : inp.acquire_result = VkResult.error_out_of_date_khr) :
    draw be st inp =
      (swapchain_reinit be inp.window_extent st,
       draw_prelude st ++ [Event.swapchain_rebuild],
       DrawOutcome.ok DrawReturn.swapchain_out_of_date) ∧
    (draw be st inp).1.current_frame_index = st.current_frame_index ∧
    (draw be st inp).1.frames_inflight_fences = st.frames_inflight_fences ∧
    (∀ j img f, Event.record_graphics_cmd j img ∉ (draw be st inp).2.1 ∧
      Event.image_fence_wait img ∉ (draw be st inp).2.1 ∧
      Event.register_image_fence img f ∉ (draw be st inp).2.1 ∧
      Event.graphics_submit j ∉ (draw be st inp).2.1 ∧
      Event.present_image img ∉ (draw be st inp).2.1) ∧
    Event.swapchain_rebuild ∉ draw_prelude st := by
  have hdraw : draw be st inp =
      (swapchain_reinit be inp.window_extent st,
       draw_prelude st ++ [Event.swapchain_rebuild],
       DrawOutcome.ok DrawReturn.swapchain_out_of_date) := by
    simp [draw, h]
  refine ⟨hdraw, ?_, ?_, ?_, ?_⟩
  · rw [hdraw]
    simp [swapchain_reinit, swapchain_get_images, create_framebuffers]
  · rw [hdraw]
    simp [swapchain_reinit, swapchain_get_images, create_framebuffers]
  · intro j img f
    rw [hdraw]
    simp [draw_prelude, record_compute_command_buffer]
  · simp [draw_prelude, record_compute_command_buffer]

/-- Witness for C3: a concrete tick from the sample state whose acquire
reports out-of-date. -/
theorem C3_stale_acquire_skips_tick_witness :
    draw demo_backend demo_state
        { demo_input with acquire_result := VkResult.error_out_of_date_khr } =
      (swapchain_reinit demo_backend
         ({ demo_input with
             acquire_result := VkResult.error_out_of_date_khr } : DrawInput).window_extent
         demo_state,
       draw_prelude demo_state ++ [Event.swapchain_rebuild],
       DrawOutcome.ok DrawReturn.swapchain_out_of_date) ∧
    (draw demo_backend demo_state
        { demo_input with acquire_result := VkResult.error_out_of_date_khr }).1.current_frame_index =
      demo_state.current_frame_index ∧
    (draw demo_backend demo_state
        { demo_input with acquire_result := VkResult.error_out_of_date_khr }).1.frames_inflight_fences =
      demo_state.frames_inflight_fences ∧
    (∀ j img f, Event.record_graphics_cmd j img ∉ (draw demo_backend demo_state
        { demo_input with acquire_result := VkResult.error_out_of_date_khr }).2.1 ∧
      Event.image_fence_wait img ∉ (draw demo_backend demo_state
        { demo_input with acquire_result := VkResult.error_out_of_date_khr }).2.1 ∧
      Event.register_image_fence img f ∉ (draw demo_backend demo_state
        { demo_input with acquire_result := VkResult.error_out_of_date_khr }).2.1 ∧
      Event.graphics_submit j ∉ (draw demo_backend demo_state
        { demo_input with acquire_result := VkResult.error_out_of_date_khr }).2.1 ∧
      Event.present_image img ∉ (draw demo_backend demo_state
        { demo_input with acquire_result := VkResult.error_out_of_date_khr }).2.1) ∧
    Event.swapchain_rebuild ∉ draw_prelude demo_state :=
  C3_stale_acquire_skips_tick demo_backend demo_state
    { demo_input with acquire_result := VkResult.error_out_of_date_khr } rfl

/-- Tick input with a degenerate (zero) window framebuffer extent. -/
def zero_extent_input : DrawInput :=
  { window_extent := ⟨0, 0⟩, acquired_image_index := 0,
    acquire_result := VkResult.success, present_result := VkResult.success }

/-- C4 counterexample: with the window framebuffer extent at (0,0), the
tick still performs the swapchain acquire and the present — `draw`
contains no zero-extent check at all, so the claimed skip does not
exist in the code. -/
theorem C4_zero_extent_counterexample :
    Event.acquire_next_image ∈ (draw demo_backend demo_state zero_extent_input).2.1 ∧
    Event.present_image 0 ∈ (draw demo_backend demo_state zero_extent_input).2.1 ∧
    (draw demo_backend demo_state zero_extent_input).2.2 =
      DrawOutcome.ok DrawReturn.success := by
  decide

/-- C4 amended: `draw` never inspects the window framebuffer extent —
the acquire is attempted on every tick regardless of the extent (in
particular at extent (0,0)), the emitted trace and the outcome are
unchanged under any substitution of the tick's window extent, and the
extent influences the tick only through the state produced when a
swapchain rebuild is triggered. -/
theorem C4_no_zero_extent_guard (be : Backend) (st : RVPTState) (inp : DrawInput) :
    Event.acquire_next_image ∈ (draw be st inp).2.1 ∧
    (∀ e : Extent,
      (draw be st { inp with window_extent := e }).2.1 = (draw be st inp).2.1 ∧
      (draw be st { inp with window_extent := e }).2.2 = (draw be st inp).2.2) := by
  constructor
  · simp only [draw, draw_prelude, record_compute_command_buffer]
    split_ifs <;> simp
  · intro e
    simp only [draw]
    split_ifs <;> simp_all

/-- Witness restating the amended C4 at a concrete zero-extent tick.
(`C4_no_zero_extent_guard` has no hypotheses; this instantiation is
kept as a concrete check.) -/
theorem C4_no_zero_extent_guard_witness :
    Event.acquire_next_image ∈ (draw demo_backend demo_state zero_extent_input).2.1 ∧
    (∀ e : Extent,
      (draw demo_backend demo_state { zero_extent_input with window_extent := e }).2.1 =
        (draw demo_backend demo_state zero_extent_input).2.1 ∧
      (draw demo_backend demo_state { zero_extent_input with window_extent := e }).2.2 =
        (draw demo_backend demo_state zero_extent_input).2.2) :=
  C4_no_zero_extent_guard demo_backend demo_state zero_extent_input

/-- A hypothetical per-frame slot whose output image width (520) is not
a multiple of the 16-wide work group. -/
def wide_image_slot : PerFrameData :=
  { output_image_width := 520, output_image_height := 512,
    cmd_buffer_queue := QueueKind.compute }

/-- C5 counterexample: the dispatch sizing expression of
`record_compute_command_buffer` is C++ truncating division, not
ceiling division.  At width 520 it yields 32 groups while the ceiling
is 33, and 32 groups of 16 threads cover only 512 of the 520 pixels —
so the claimed round-up (which would cover the image even when a
dimension is not a multiple of the group size) is refuted. -/
theorem C5_floor_division_counterexample :
    compute_dispatch_counts wide_image_slot = (32, 32) ∧
    (wide_image_slot.output_image_width + 16 - 1) / 16 = 33 ∧
    (compute_dispatch_counts wide_image_slot).1 * 16 <
      wide_image_slot.output_image_width := by
  decide

/-- C5 amended: the dispatch grid is `width / 16` by `height / 16` with
truncating integer division; every slot that `add_per_frame_data`
creates has the fixed 512 x 512 output image, a multiple of the group
size, so the dispatch is 32 x 32, which equals the ceiling and covers
the image exactly; and every tick's trace records the compute command
buffer with exactly these truncated-division group counts for the
current slot. -/
theorem C5_dispatch_sizing_fixed_image :
    (∀ st : RVPTState, (add_per_frame_data st).1.per_frame_data =
      st.per_frame_data ++
        [{ output_image_width := 512, output_image_height := 512,
           cmd_buffer_queue := per_frame_cmd_queue st.has_dedicated_compute }]) ∧
    (∀ q : QueueKind,
      compute_dispatch_counts
          { output_image_width := 512, output_image_height := 512,
            cmd_buffer_queue := q } = (32, 32) ∧
      32 * 16 = 512) ∧
    (∀ (be : Backend) (st : RVPTState) (inp : DrawInput),
      Event.record_compute_cmd st.current_frame_index
          ((st.per_frame_data.getD st.current_frame_index default_per_frame).output_image_width / 16)
          ((st.per_frame_data.getD st.current_frame_index default_per_frame).output_image_height / 16)
        ∈ (draw be st inp).2.1) := by
  refine ⟨?_, ?_, ?_⟩
  · intro st
    simp [add_per_frame_data]
  · intro q
    exact ⟨by simp [compute_dispatch_counts], rfl⟩
  · intro be st inp
    simp only [draw, draw_prelude, record_compute_command_buffer, compute_dispatch_counts]
    split_ifs <;> simp

/-- Erase which queue an event went to, keeping everything else. -/
def erase_queue : Event → Event
  | Event.compute_submit _ s => Event.compute_submit QueueKind.graphics s
  | Event.alloc_command_buffer _ s => Event.alloc_command_buffer QueueKind.graphics s
  | e => e

/-- C6: Compute queue routing.  The submit-queue choice of `draw` and
the allocation-queue choice of `add_per_frame_data` both pick the
dedicated compute queue exactly when one exists and otherwise the
graphics queue, and they agree; every tick submits the compute work to
that queue, and every slot's command buffer is allocated from it; and
the choice is transparent to the rest of the tick: with the queue
identity erased from events, a tick from a state with a dedicated
compute queue emits the same trace, returns the same outcome, and
produces the same state (up to the queue flag itself) as the identical
tick without one. -/
theorem C6_compute_queue_routing :
    (compute_submit_queue true = QueueKind.compute ∧
     compute_submit_queue false = QueueKind.graphics ∧
     (∀ b, per_frame_cmd_queue b = compute_submit_queue b)) ∧
    (∀ (be : Backend) (st : RVPTState) (inp : DrawInput),
      Event.compute_submit (compute_submit_queue st.has_dedicated_compute)
          st.current_frame_index ∈ (draw be st inp).2.1) ∧
    (∀ st : RVPTState,
      Event.alloc_command_buffer (per_frame_cmd_queue st.has_dedicated_compute)
          st.per_frame_data.length ∈ (add_per_frame_data st).2) ∧
    (∀ (be : Backend) (st : RVPTState) (inp : DrawInput),
      (draw be { st with has_dedicated_compute := true } inp).2.1.map erase_queue =
        (draw be { st with has_dedicated_compute := false } inp).2.1.map erase_queue ∧
      (draw be { st with has_dedicated_compute := true } inp).2.2 =
        (draw be { st with has_dedicated_compute := false } inp).2.2 ∧
      (draw be { st with has_dedicated_compute := true } inp).1 =
        { (draw be { st with has_dedicated_compute := false } inp).1 with
            has_dedicated_compute := true }) := by
  refine ⟨⟨rfl, rfl, fun b => rfl⟩, ?_, ?_, ?_⟩
  · intro be st inp
    simp only [draw, draw_prelude, record_compute_command_buffer]
    split_ifs <;> simp
  · intro st
    simp [add_per_frame_data]
  · intro be st inp
    refine ⟨?_, ?_, ?_⟩ <;>
      · simp only [draw, draw_prelude, record_compute_command_buffer]
        split_ifs <;>
          simp [erase_queue, compute_submit_queue, swapchain_reinit,
                swapchain_get_images, create_framebuffers]

theorem range_getD_self (n i : Nat) (h : i < n) : (List.range n).getD i 0 = i := by
  rw [List.getD_eq_getElem?_getD, List.getElem?_range h]
  rfl

/-- C7: swapchain rebuild leaves the whole frame pool untouched — the
per-frame slots, the sync-resource count, the cursor
`current_frame_index`, the per-image fence table
`frames_inflight_fences`, the resize flag, and the queue flag are all
unchanged — while the swapchain, its image views and the framebuffers
are torn down and reconstructed from the current window extent. -/
theorem C7_rebuild_preserves_frame_pool (be : Backend) (e : Extent) (st : RVPTState) :
    (swapchain_reinit be e st).per_frame_data = st.per_frame_data ∧
    (swapchain_reinit be e st).sync_resources_count = st.sync_resources_count ∧
    (swapchain_reinit be e st).current_frame_index = st.current_frame_index ∧
    (swapchain_reinit be e st).frames_inflight_fences = st.frames_inflight_fences ∧
    (swapchain_reinit be e st).framebuffer_resized = st.framebuffer_resized ∧
    (swapchain_reinit be e st).has_dedicated_compute = st.has_dedicated_compute ∧
    (swapchain_reinit be e st).vkb_swapchain = build_swapchain be e ∧
    (swapchain_reinit be e st).swapchain_images =
      List.range (be.image_count_of e) ∧
    (swapchain_reinit be e st).swapchain_image_views =
      List.range (be.image_count_of e) ∧
    (swapchain_reinit be e st).framebuffers =
      (List.range (be.image_count_of e)).map
        (fun i => { extent := e, image_view := i }) := by
  refine ⟨rfl, rfl, rfl, rfl, rfl, rfl, rfl, rfl, rfl, ?_⟩
  show (List.range (be.image_count_of e)).map
      (fun i => ({ extent := e,
                   image_view := (List.range (be.image_count_of e)).getD i 0 } : Framebuffer)) = _
  refine List.map_congr_left ?_
  intro i hi
  rw [range_getD_self _ _ (List.mem_range.mp hi)]

/-- C8: swapchain rebuild is idempotent — rebuilding twice in a row
from the same window extent (no intervening acquire) produces exactly
the same renderer state, hence the same
swapchain/image-view/framebuffer shape, as rebuilding once. -/
theorem C8_rebuild_idempotent (be : Backend) (e : Extent) (st : RVPTState) :
    swapchain_reinit be e (swapchain_reinit be e st) = swapchain_reinit be e st := by
  cases st
  rfl

/-- Shorthand: the descriptor write for slot `i`'s sampling set. -/
def upd_img (i : Nat) : Event :=
  Event.update_descriptor_sets (DescSetId.image_descriptor_set i)

/-- Shorthand: the descriptor write for slot `i`'s compute set. -/
def upd_rt (i : Nat) : Event :=
  Event.update_descriptor_sets (DescSetId.raytracing_descriptor_set i)

theorem add_frames_count_img (n : Nat) (st : RVPTState) (tr : List Event) (i : Nat) :
    ((add_frames n (st, tr)).2.count (upd_img i)) =
      tr.count (upd_img i) +
        (if st.per_frame_data.length ≤ i ∧ i < st.per_frame_data.length + n
         then 1 else 0) := by
  induction n generalizing st tr with
  | zero => simp [add_frames]
  | succ n ih =>
    show ((add_frames n _).2.count (upd_img i)) = _
    rw [ih]
    simp only [add_per_frame_data, List.count_append, List.count_cons, List.count_nil,
      List.length_append, List.length_singleton, upd_img, beq_iff_eq]
    simp only [Event.update_descriptor_sets.injEq, DescSetId.image_descriptor_set.injEq]
    split_ifs <;> simp_all <;> omega

theorem add_frames_count_rt (n : Nat) (st : RVPTState) (tr : List Event) (i : Nat) :
    ((add_frames n (st, tr)).2.count (upd_rt i)) =
      tr.count (upd_rt i) +
        (if st.per_frame_data.length ≤ i ∧ i < st.per_frame_data.length + n
         then 1 else 0) := by
  induction n generalizing st tr with
  | zero => simp [add_frames]
  | succ n ih =>
    show ((add_frames n _).2.count (upd_rt i)) = _
    rw [ih]
    simp only [add_per_frame_data, List.count_append, List.count_cons, List.count_nil,
      List.length_append, List.length_singleton, upd_rt, beq_iff_eq]
    simp only [Event.update_descriptor_sets.injEq, DescSetId.raytracing_descriptor_set.injEq]
    split_ifs <;> simp_all <;> omega

theorem draw_no_descriptor_update (be : Backend) (st : RVPTState) (inp : DrawInput)
    (s : DescSetId) : Event.update_descriptor_sets s ∉ (draw be st inp).2.1 := by
  simp only [draw, draw_prelude, record_compute_command_buffer]
  split_ifs <;> simp

theorem draw_loop_no_descriptor_update (be : Backend) (st : RVPTState)
    (inps : List DrawInput) (s : DescSetId) :
    Event.update_descriptor_sets s ∉ (draw_loop be st inps).2 := by
  induction inps generalizing st with
  | nil => simp [draw_loop]
  | cons inp rest ih =>
    unfold draw_loop
    rcases h : draw be st inp with ⟨st1, tr, out⟩
    have htr : Event.update_descriptor_sets s ∉ tr := by
      have := draw_no_descriptor_update be st inp s
      rw [h] at this
      exact this
    cases out with
    | fatal => exact htr
    | ok r =>
      simp only [List.mem_append]
      rintro (hmem | hmem)
      · exact htr hmem
      · exact ih st1 hmem

/-- C9: Descriptor-binding stability.  No tick of the render loop ever
issues a descriptor-set write (`vkUpdateDescriptorSets` is absent from
`draw`'s trace, for a single tick and along any run), while setup
writes each slot's sampling descriptor set and compute descriptor set
exactly once at slot creation. -/
theorem C9_descriptor_bindings_stable :
    (∀ (be : Backend) (st : RVPTState) (inp : DrawInput) (s : DescSetId),
      Event.update_descriptor_sets s ∉ (draw be st inp).2.1) ∧
    (∀ (be : Backend) (st : RVPTState) (inps : List DrawInput) (s : DescSetId),
      Event.update_descriptor_sets s ∉ (draw_loop be st inps).2) ∧
    (∀ st : RVPTState,
      (add_per_frame_data st).2.count (upd_img st.per_frame_data.length) = 1 ∧
      (add_per_frame_data st).2.count (upd_rt st.per_frame_data.length) = 1) ∧
    (∀ (be : Backend) (e : Extent) (n : Nat) (flag : Bool) (i : Nat), i < n →
      (init_rvpt be e n flag).2.count (upd_img i) = 1 ∧
      (init_rvpt be e n flag).2.count (upd_rt i) = 1) := by
  refine ⟨draw_no_descriptor_update, draw_loop_no_descriptor_update, ?_, ?_⟩
  · intro st
    constructor <;>
      simp [add_per_frame_data, List.count_cons, List.count_nil, upd_img, upd_rt,
        beq_iff_eq]
  · intro be e n flag i hi
    constructor
    · rw [show (init_rvpt be e n flag).2 = (add_frames n (_, ([] : List Event))).2 from rfl,
        add_frames_count_img]
      simp [hi, create_framebuffers]
    · rw [show (init_rvpt be e n flag).2 = (add_frames n (_, ([] : List Event))).2 from rfl,
        add_frames_count_rt]
      simp [hi, create_framebuffers]

/-- Witness for C9 at the concrete sample setup (two slots, slot 0). -/
theorem C9_descriptor_bindings_stable_witness :
    Event.update_descriptor_sets (DescSetId.image_descriptor_set 0) ∉
      (draw demo_backend demo_state demo_input).2.1 ∧
    (init_rvpt demo_backend ⟨512, 512⟩ 2 true).2.count (upd_img 0) = 1 ∧
    (init_rvpt demo_backend ⟨512, 512⟩ 2 true).2.count (upd_rt 0) = 1 :=
  ⟨C9_descriptor_bindings_stable.1 demo_backend demo_state demo_input
     (DescSetId.image_descriptor_set 0),
   (C9_descriptor_bindings_stable.2.2.2 demo_backend ⟨512, 512⟩ 2 true 0
     (by decide)).1,
   (C9_descriptor_bindings_stable.2.2.2 demo_backend ⟨512, 512⟩ 2 true 0
     (by decide)).2⟩

theorem add_frames_fences (n : Nat) (st : RVPTState) (tr : List Event) :
    (add_frames n (st, tr)).1.frames_inflight_fences = st.frames_inflight_fences := by
  induction n generalizing st tr with
  | zero => rfl
  | succ n ih =>
    show (add_frames n _).1.frames_inflight_fences = _
    rw [ih]
    rfl

theorem draw_fences_length (be : Backend) (st : RVPTState) (inp : DrawInput) :
    (draw be st inp).1.frames_inflight_fences.length =
      st.frames_inflight_fences.length := by
  simp only [draw]
  split_ifs <;>
    simp [swapchain_reinit, swapchain_get_images, create_framebuffers, List.length_set]

theorem draw_loop_fences_length (be : Backend) (st : RVPTState)
    (inps : List DrawInput) :
    (draw_loop be st inps).1.frames_inflight_fences.length =
      st.frames_inflight_fences.length := by
  induction inps generalizing st with
  | nil => rfl
  | cons inp rest ih =>
    unfold draw_loop
    rcases h : draw be st inp with ⟨st1, tr, out⟩
    have hlen : st1.frames_inflight_fences.length = st.frames_inflight_fences.length := by
      have := draw_fences_length be st inp
      rw [h] at this
      exact this
    cases out with
    | fatal => exact hlen
    | ok r =>
      simp only []
      rw [ih st1, hlen]

/-- C10: the per-image fence table `frames_inflight_fences` is sized
exactly once at setup to the initial swapchain image count and is never
resized afterwards: every tick preserves its length (so does any run of
the render loop), and a swapchain rebuild does not touch it at all —
it keeps the very same entries (hence possibly stale fences of the old
image set) even though the rebuild may change the swapchain's image
count; consequently indexing it with an acquired image index stays in
bounds exactly when that index is smaller than the initial image
count. -/
theorem C10_fence_table_fixed_size :
    (∀ (be : Backend) (e : Extent) (n : Nat) (flag : Bool),
      (init_rvpt be e n flag).1.frames_inflight_fences =
        List.replicate (be.image_count_of e) none) ∧
    (∀ (be : Backend) (e : Extent) (st : RVPTState),
      (swapchain_reinit be e st).frames_inflight_fences =
        st.frames_inflight_fences ∧
      (swapchain_reinit be e st).vkb_swapchain.image_count = be.image_count_of e) ∧
    (∀ (be : Backend) (st : RVPTState) (inp : DrawInput),
      (draw be st inp).1.frames_inflight_fences.length =
        st.frames_inflight_fences.length) ∧
    (∀ (be : Backend) (st : RVPTState) (inps : List DrawInput),
      (draw_loop be st inps).1.frames_inflight_fences.length =
        st.frames_inflight_fences.length) ∧
    (∀ (be : Backend) (e : Extent) (n : Nat) (flag : Bool) (inps : List DrawInput)
       (img : Nat),
      (img < (draw_loop be (init_rvpt be e n flag).1 inps).1.frames_inflight_fences.length
        ↔ img < be.image_count_of e)) := by
  have hinit : ∀ (be : Backend) (e : Extent) (n : Nat) (flag : Bool),
      (init_rvpt be e n flag).1.frames_inflight_fences =
        List.replicate (be.image_count_of e) none := by
    intro be e n flag
    rw [show (init_rvpt be e n flag).1 = (add_frames n (_, ([] : List Event))).1 from rfl,
      add_frames_fences]
    rfl
  refine ⟨hinit, ?_, draw_fences_length, draw_loop_fences_length, ?_⟩
  · intro be e st
    exact ⟨rfl, rfl⟩
  · intro be e n flag inps img
    rw [draw_loop_fences_length, hinit, List.length_replicate]
